import Mathlib

/-!
# Verification of the pyGenicParser BGEN reader (`bgenObject.py`)

A shallow embedding of the `BgenObject` class.  Files are modelled as lists of
bytes (`List Nat`, each entry `< 256`); the companion `.bgi` SQLite database is
modelled as a list of rows; fallible code returns `Except String`.
Probabilities and dosages are rationals, with `Option ℚ` standing for a float
that may be NaN (`none` = NaN).
-/

deriving instance DecidableEq for Except

namespace PyGenicParser

/-! ## Byte and struct primitives (`_unpack`, `_read_bgen`, `mc.struct_unpack`) -/

/-- Little-endian value of a byte list (least significant byte first). -/
def leNat : List Nat → Nat
  | [] => 0
  | b :: bs => b % 256 + 256 * leNat bs

/-- `file.read(n)` at position `pos`: returns the bytes obtained (possibly
fewer than `n` at end of file, as in Python) and the new position. -/
def readN (data : List Nat) (pos n : Nat) : List Nat × Nat :=
  let bs := (data.drop pos).take n
  (bs, pos + bs.length)

/-- `struct.unpack("<I", bs)[0]`: requires exactly 4 bytes. -/
def structUnpackU32 (bs : List Nat) : Except String Nat :=
  if bs.length = 4 then .ok (leNat bs) else .error "struct.error"

/-- `struct.unpack("<H", bs)[0]`: requires exactly 2 bytes. -/
def structUnpackU16 (bs : List Nat) : Except String Nat :=
  if bs.length = 2 then .ok (leNat bs) else .error "struct.error"

/-- `self._unpack("<I", 4)`: read 4 bytes from the stream and decode. -/
def unpackU32 (data : List Nat) (pos : Nat) : Except String (Nat × Nat) := do
  let (bs, p) := readN data pos 4
  let v ← structUnpackU32 bs
  .ok (v, p)

/-- `self._unpack("<H", 2)`: read 2 bytes from the stream and decode. -/
def unpackU16 (data : List Nat) (pos : Nat) : Except String (Nat × Nat) := do
  let (bs, p) := readN data pos 2
  let v ← structUnpackU16 bs
  .ok (v, p)

/-- `data[i]` on a Python `bytes` object (also `mc.byte_to_int`):
an integer in `[0, 256)`, `IndexError` when out of range. -/
def byteAt (data : List Nat) (i : Nat) : Except String Nat :=
  match data.get? i with
  | some b => .ok (b % 256)
  | none => .error "IndexError"

/-- `self._read_bgen("<H", 2)`: a `u16` length followed by that many bytes.
The bytes are kept raw (the `.decode()` to UTF-8 is not modelled). -/
def readBgenStr16 (data : List Nat) (pos : Nat) : Except String (List Nat × Nat) := do
  let (len, p) ← unpackU16 data pos
  let (s, p2) := readN data p len
  .ok (s, p2)

/-- `self._read_bgen("<I", 4)`: a `u32` length followed by that many bytes. -/
def readBgenStr32 (data : List Nat) (pos : Nat) : Except String (List Nat × Nat) := do
  let (len, p) ← unpackU32 data pos
  let (s, p2) := readN data p len
  .ok (s, p2)

/-- `np.frombuffer(data, dtype="u2")`: little-endian 16-bit values; numpy
fails when the buffer size is not a multiple of the element size. -/
def chunkPairsLE : List Nat → List Nat
  | a :: b :: rest => (a % 256 + 256 * (b % 256)) :: chunkPairsLE rest
  | _ => []

def fromBufferU16 (data : List Nat) : Except String (List Nat) :=
  if data.length % 2 = 0 then .ok (chunkPairsLE data)
  else .error "buffer size must be a multiple of element size"

/-- `np.frombuffer(data, dtype=np.uint32)`. -/
def chunkQuadsLE : List Nat → List Nat
  | a :: b :: c :: d :: rest =>
      (a % 256 + 256 * (b % 256) + 65536 * (c % 256) + 16777216 * (d % 256)) :: chunkQuadsLE rest
  | _ => []

def fromBufferU32 (data : List Nat) : Except String (List Nat) :=
  if data.length % 4 = 0 then .ok (chunkQuadsLE data)
  else .error "buffer size must be a multiple of element size"

/-- Helpers to build little-endian byte encodings of test inputs. -/
def u32le (x : Nat) : List Nat := [x % 256, x / 256 % 256, x / 65536 % 256, x / 16777216 % 256]

def u16le (x : Nat) : List Nat := [x % 256, x / 256 % 256]

/-! ## The generic bit unpacker (`mc.pack_bits`) -/

/-- Bit `i` of the byte stream, bits consumed LSB-first within each byte. -/
def bitOf (data : List Nat) (i : Nat) : Nat :=
  (data.getD (i / 8) 0) / 2 ^ (i % 8) % 2

/-- The `b`-bit LSB-first unsigned integer stream decoder of the spec:
`⌊len(buf)·8 / b⌋` values, each assembled from `b` consecutive bits. -/
def decodeBits (data : List Nat) (b : Nat) : List Nat :=
  (List.range (data.length * 8 / b)).map
    (fun j => (List.range b).foldl (fun acc t => acc + bitOf data (j * b + t) * 2 ^ t) 0)

/-- Modelled from the spec: `mc.pack_bits` lives in the `misc` module, which is
absent from the sources.  Per §4.1 it is the generic `b`-bit unsigned integer
stream decoder (bits LSB-first, values may straddle byte boundaries), and per
the §4.4 edge-case policy a bit width outside `[1, 32]` fails with
`Malformed`. -/
def packBits (data : List Nat) (b : Nat) : Except String (List Nat) :=
  if 1 ≤ b ∧ b ≤ 32 then .ok (decodeBits data b) else .error "Malformed"

/-! ## Python slices and fancy indexing -/

/-- A Python `slice(start, stop, step)` literal. -/
structure PySlice where
  start : Option Int
  stop : Option Int
  step : Option Int
deriving DecidableEq

/-- A selector as stored in `iid_index` / `sid_index`: either a slice or an
array of integer indices. -/
inductive Selector
  | slice (s : PySlice)
  | arr (l : List Int)
deriving DecidableEq

/-- The default `slice(None, None, None)` selector. -/
def defaultSelector : Selector := .slice ⟨none, none, none⟩

/-- CPython `slice.indices(n)` normalisation of `(start, stop, step)`. -/
def pySliceResolve (s : PySlice) (n : Nat) : Except String (Int × Int × Int) :=
  let step := s.step.getD 1
  if step = 0 then .error "slice step cannot be zero" else
  let lower : Int := if step < 0 then -1 else 0
  let upper : Int := if step < 0 then (n : Int) - 1 else (n : Int)
  let start := match s.start with
    | none => if step < 0 then upper else lower
    | some v => if v < 0 then max (v + n) lower else min v upper
  let stop := match s.stop with
    | none => if step < 0 then lower else upper
    | some v => if v < 0 then max (v + n) lower else min v upper
  .ok (start, stop, step)

/-- The index sequence a slice denotes over a length-`n` axis
(`np.arange(n)[s]` returns exactly these values). -/
def pySliceIndices (s : PySlice) (n : Nat) : Except String (List Int) := do
  let (start, stop, step) ← pySliceResolve s n
  let count : Nat :=
    if 0 < step then (if start < stop then ((stop - start - 1) / step).toNat + 1 else 0)
    else (if stop < start then ((start - stop - 1) / (-step)).toNat + 1 else 0)
  .ok ((List.range count).map (fun i => start + step * i))

/-- `xs[v]` for a single (possibly negative) integer index, numpy semantics. -/
def pyGetOne (xs : List α) (v : Int) : Except String α :=
  let n : Int := xs.length
  if 0 ≤ v ∧ v < n then
    match xs.get? v.toNat with
    | some x => .ok x
    | none => .error "IndexError"
  else if -n ≤ v ∧ v < 0 then
    match xs.get? (v + n).toNat with
    | some x => .ok x
    | none => .error "IndexError"
  else .error "IndexError"

/-- `xs[selector]` for a stored selector: slice indexing or integer-array
fancy indexing. -/
def pyIndex (xs : List α) : Selector → Except String (List α)
  | .slice s => do
      let ids ← pySliceIndices s xs.length
      ids.mapM (pyGetOne xs)
  | .arr l => l.mapM (pyGetOne xs)

/-! ## The companion `.bgi` index -/

/-- One row of the `Variant` table of a `.bgi` database. -/
structure BgiRow where
  fileStartPosition : Nat
  sizeInBytes : Nat
  chromosome : List Nat
  position : Nat
  rsid : List Nat
  allele1 : List Nat
  allele2 : List Nat
deriving DecidableEq

/-- `MIN(file_start_position)` over the table (`NULL` on an empty table). -/
def minFsp (rows : List BgiRow) : Option Nat :=
  rows.foldr (fun r acc => match acc with
    | none => some r.fileStartPosition
    | some m => some (min r.fileStartPosition m)) none

/-- `MAX(file_start_position)` over the table. -/
def maxFsp (rows : List BgiRow) : Option Nat :=
  rows.foldr (fun r acc => match acc with
    | none => some r.fileStartPosition
    | some m => some (max r.fileStartPosition m)) none

/-- `_connect_to_bgi_index`: validate the table against the header and return
`last_variant_block`.  `COUNT(rsid)` is the number of rows (rsids are never
NULL here); a `NULL` minimum never equals a number, so an empty table fails
the first-variant check. -/
def connectToBgiIndex (variantNumber variantStart : Nat) (rows : List BgiRow) :
    Except String Nat :=
  let nbMarkers := rows.length
  if nbMarkers ≠ variantNumber then .error "assert nb_markers == variant_number" else
  match minFsp rows, maxFsp rows with
  | some firstBlock, some lastBlock =>
      if firstBlock ≠ variantStart then .error "assert first_variant_block == variant_start"
      else .ok lastBlock
  | _, _ => .error "assert first_variant_block == variant_start"

/-! ## Header parsing (`_parse_header`, `_header_flag`) -/

/-- The file-level state established by `_parse_header`. -/
structure HeaderInfo where
  offsetV : Nat
  headersSize : Nat
  variantNumber : Nat
  sampleNumber : Nat
  compressionFlag : Nat
  compressed : Bool
  layout : Nat
  sampleIdentifiers : Bool
  variantStart : Nat
deriving DecidableEq

/-- `_parse_header` together with `_header_flag`: returns the header record
and the stream position after the flag word (= the number of bytes read from
the start of the file). -/
def parseHeader (data : List Nat) : Except String (HeaderInfo × Nat) := do
  let (offsetV, p1) ← unpackU32 data 0
  let (headersSize, p2) ← unpackU32 data p1
  if ¬ headersSize ≤ offsetV then .error "offset_violation" else
  let variantStart := offsetV + 4
  let (variantNumber, p3) ← unpackU32 data p2
  let (sampleNumber, p4) ← unpackU32 data p3
  let (magic, p5) := readN data p4 4
  if magic.length ≠ 4 then .error "struct.error" else
  if ¬ (magic = [98, 103, 101, 110] ∨ leNat magic = 0) then .error "magic_violation" else
  let (_, p6) := readN data p5 (headersSize - 20)
  let (flagBytes, p7) := readN data p6 4
  if flagBytes.length ≠ 4 then .error "IndexError" else
  let w := leNat flagBytes
  let compressionFlag := w % 4
  if ¬ compressionFlag < 3 then .error "compression_violation" else
  let layout := w / 4 % 16
  if ¬ (1 ≤ layout ∧ layout < 3) then .error "layout_violation" else
  let sampleIdentifiers := w / 2 ^ 31 % 2 = 1
  let compressed := compressionFlag ≠ 0
  .ok (⟨offsetV, headersSize, variantNumber, sampleNumber, compressionFlag,
        compressed, layout, sampleIdentifiers, variantStart⟩, p7)

/-! ## The reader object -/

/-- `mc.no_decompress` is absent from the sources; §4.2 of the spec defines
compression code 0 as the identity (no decompression). -/
def noDecompress (bs : List Nat) : Except String (List Nat) := .ok bs

/-- The decompressor selected from the header flag; `zlib.decompress` and
`zstd.decompress` are external libraries and stay abstract parameters. -/
def selectCompression (flag : Nat)
    (zlibD zstdD : List Nat → Except String (List Nat)) :
    List Nat → Except String (List Nat) :=
  if flag = 0 then noDecompress else if flag = 1 then zlibD else zstdD

/-- The state of a `BgenObject` after `__init__`. -/
structure BgenReader where
  filePath : String
  fileBytes : List Nat
  bgiPresent : Bool
  bgiRows : List BgiRow
  offsetV : Nat
  headersSize : Nat
  variantNumber : Nat
  sampleNumber : Nat
  compressionFlag : Nat
  compressed : Bool
  compression : List Nat → Except String (List Nat)
  layout : Nat
  sampleIdentifiers : Bool
  variantStart : Nat
  iidIndex : Selector
  sidIndex : Selector
  iidCount : Nat
  sidCount : Nat
  probabilityReturn : Bool
  probability : ℚ
  samplePath : Bool
  lastVariantBlock : Option Nat
  zlibD : List Nat → Except String (List Nat)
  zstdD : List Nat → Except String (List Nat)

/-- The reader record `__init__` builds once the header is parsed, the
selector counts are resolved, and the index connection is established. -/
def mkReader (filePath : String) (fileBytes : List Nat) (bgiPresent : Bool)
    (bgiRows : List BgiRow) (probabilityReturn : Bool) (probability : ℚ)
    (samplePath : Bool) (iidIndex sidIndex : Selector)
    (zlibD zstdD : List Nat → Except String (List Nat))
    (h : HeaderInfo) (iidArr sidArr : List Int) (lastVariantBlock : Option Nat) :
    BgenReader where
  filePath := filePath
  fileBytes := fileBytes
  bgiPresent := bgiPresent
  bgiRows := bgiRows
  offsetV := h.offsetV
  headersSize := h.headersSize
  variantNumber := h.variantNumber
  sampleNumber := h.sampleNumber
  compressionFlag := h.compressionFlag
  compressed := h.compressed
  compression := selectCompression h.compressionFlag zlibD zstdD
  layout := h.layout
  sampleIdentifiers := h.sampleIdentifiers
  variantStart := h.variantStart
  iidIndex := iidIndex
  sidIndex := sidIndex
  iidCount := iidArr.length
  sidCount := sidArr.length
  probabilityReturn := probabilityReturn
  probability := probability
  samplePath := samplePath
  lastVariantBlock := lastVariantBlock
  zlibD := zlibD
  zstdD := zstdD

/-- `BgenObject.__init__`: open the file, parse the header, resolve the
selector counts (`iid_count`, `sid_count`), connect to the `.bgi` when
present.  The second component of the result is the number of bytes read
from the BGEN file while parsing the header. -/
def bgenInit (filePath : String) (fileBytes : List Nat) (bgiPresent : Bool)
    (bgiRows : List BgiRow) (probabilityReturn : Bool) (probability : ℚ)
    (samplePath : Bool) (iidIndex sidIndex : Selector)
    (zlibD zstdD : List Nat → Except String (List Nat)) :
    Except String (BgenReader × Nat) := do
  let (h, bytesRead) ← parseHeader fileBytes
  let iidArr ← pyIndex ((List.range h.sampleNumber).map Int.ofNat) iidIndex
  let sidArr ← pyIndex ((List.range h.variantNumber).map Int.ofNat) sidIndex
  let lastVariantBlock ← if bgiPresent then do
      let lv ← connectToBgiIndex h.variantNumber h.variantStart bgiRows
      pure (some lv)
    else pure (none : Option Nat)
  .ok (mkReader filePath fileBytes bgiPresent bgiRows probabilityReturn probability
    samplePath iidIndex sidIndex zlibD zstdD h iidArr sidArr lastVariantBlock, bytesRead)

/-! ## Slicing (`_set_slice`, `__getitem__`) -/

/-- `_set_slice`: resolve a user selector into an index array.  A slice is
applied to `np.arange(sample_number)` (or `variant_number`); a list has its
negative entries removed and is then passed to `np.take` over the full
range, which fails on out-of-range indices. -/
def setSlice (r : BgenReader) (sliceObject : Selector) (iid : Bool) :
    Except String (List Int) :=
  let n : Nat := if iid then r.sampleNumber else r.variantNumber
  match sliceObject with
  | .slice s => pySliceIndices s n
  | .arr l =>
      let validValues := l.filter (fun v => 0 ≤ v)
      if validValues.all (fun v => v < (n : Int)) then .ok validValues
      else .error "IndexError"

/-- `__getitem__`: resolve both selectors against the current reader's full
axis ranges and re-run the constructor on the same file. -/
def getItem (r : BgenReader) (iidSlicer sidSlicer : Selector) :
    Except String (BgenReader × Nat) := do
  let ii ← setSlice r iidSlicer true
  let si ← setSlice r sidSlicer false
  bgenInit r.filePath r.fileBytes r.bgiPresent r.bgiRows r.probabilityReturn
    r.probability r.samplePath (.arr ii) (.arr si) r.zlibD r.zstdD

/-! ## Kernel-computable rational arithmetic

The standard `ℚ` field operations of this toolchain do not reduce inside the
kernel, so the decoders below use these `Rat.divInt`-based equivalents; each
is proved equal to the corresponding standard operation. -/

def qadd (a b : ℚ) : ℚ := Rat.divInt (a.num * b.den + b.num * a.den) (a.den * b.den)

def qsub (a b : ℚ) : ℚ := Rat.divInt (a.num * b.den - b.num * a.den) (a.den * b.den)

def qmul (a b : ℚ) : ℚ := Rat.divInt (a.num * b.num) (a.den * b.den)

def qdiv (a b : ℚ) : ℚ := Rat.divInt (a.num * b.den) (a.den * b.num)

/-! ## Variant info stage (`_get_curr_variant_info`) -/

/-- The `Variant` record `(chromosome, position, rsid, allele1, allele2)`;
string fields are kept as raw bytes. -/
structure RawVariant where
  chromosome : List Nat
  position : Nat
  rsid : List Nat
  allele1 : List Nat
  allele2 : List Nat
deriving DecidableEq

/-- Read `k` consecutive `u32`-length-prefixed strings (the allele loop). -/
def readStr32List (data : List Nat) (pos : Nat) :
    Nat → Except String (List (List Nat) × Nat)
  | 0 => .ok ([], pos)
  | k + 1 => do
    let (s, p) ← readBgenStr32 data pos
    let (rest, p2) ← readStr32List data p k
    .ok (s :: rest, p2)

/-- Read `k` consecutive `u16`-length-prefixed strings (the sample block). -/
def readStr16List (data : List Nat) (pos : Nat) :
    Nat → Except String (List (List Nat) × Nat)
  | 0 => .ok ([], pos)
  | k + 1 => do
    let (s, p) ← readBgenStr16 data pos
    let (rest, p2) ← readStr16List data p k
    .ok (s :: rest, p2)

/-- `_set_number_of_alleles`: layout 2 reads a `u16`, layout 1 is fixed at 2. -/
def setNumberOfAlleles (r : BgenReader) (pos : Nat) : Except String (Nat × Nat) :=
  if r.layout = 2 then unpackU16 r.fileBytes pos else .ok (2, pos)

/-- `_get_curr_variant_info`: under layout 1 first a `u32` that is asserted
equal to `self.iid_count`; then variant id (discarded), rsid, chromosome,
position, and the alleles (only the first two are retained, `IndexError`
when fewer than two are present). -/
def getCurrVariantInfo (r : BgenReader) (pos : Nat) :
    Except String (RawVariant × Nat) := do
  let pos ← if r.layout = 1 then do
      let (v, p) ← unpackU32 r.fileBytes pos
      if v = r.iidCount then pure p else .error "ec"
    else pure pos
  let (_variantId, p1) ← readBgenStr16 r.fileBytes pos
  let (rsid, p2) ← readBgenStr16 r.fileBytes p1
  let (chromosome, p3) ← readBgenStr16 r.fileBytes p2
  let (position, p4) ← unpackU32 r.fileBytes p3
  let (nAlleles, p5) ← setNumberOfAlleles r p4
  let (alleles, p6) ← readStr32List r.fileBytes p5 nAlleles
  match alleles with
  | a0 :: a1 :: _ => .ok (⟨chromosome, position, rsid, a0, a1⟩, p6)
  | _ => .error "IndexError"

/-! ## Payload stage, layout 1 (`_get_curr_variant_probs_layout_1`) -/

/-- Regroup a flat list into consecutive triples (`reshape (n, 3)` content). -/
def toTriplesQ : List ℚ → List (ℚ × ℚ × ℚ)
  | a :: b :: c :: rest => (a, b, c) :: toTriplesQ rest
  | _ => []

/-- `_get_curr_variant_probs_layout_1`: when compressed a `u32` byte count is
read, otherwise the byte count is `self._sample_number`; the bytes are
decompressed, reinterpreted as `u16` values, divided by 32768 and reshaped
to `(sample_number, 3)`.  The final position is also returned. -/
def getCurrVariantProbsLayout1 (r : BgenReader) (pos : Nat) :
    Except String (List (ℚ × ℚ × ℚ) × Nat) := do
  let (c, p1) ← if r.compressed then unpackU32 r.fileBytes pos
    else .ok (r.sampleNumber, pos)
  let (raw, p2) := readN r.fileBytes p1 c
  let data ← r.compression raw
  let vals ← fromBufferU16 data
  if vals.length ≠ r.sampleNumber * 3 then .error "cannot reshape" else
  .ok (toTriplesQ (vals.map (fun v => qdiv (v : ℚ) 32768)), p2)

/-- `_layout_1_probs_to_dosage`: `2·P(aa) + P(Aa)`, NaN where no probability
reaches the threshold (only when the threshold is positive). -/
def layout1ProbsToDosage (r : BgenReader) (probs : List (ℚ × ℚ × ℚ)) :
    List (Option ℚ) :=
  let dosage := probs.map (fun p => qadd (qmul 2 p.2.2) p.2.1)
  if 0 < r.probability then
    (probs.zip dosage).map (fun pd =>
      if r.probability ≤ pd.1.1 ∨ r.probability ≤ pd.1.2.1 ∨ r.probability ≤ pd.1.2.2
      then some pd.2 else none)
  else dosage.map some

/-! ## Payload stage, layout 2 (`_get_curr_variant_probs_layout_2`) -/

/-- Regroup a flat list into consecutive pairs (`reshape (n, 2)` content). -/
def toPairsN : List Nat → List (Nat × Nat)
  | a :: b :: rest => (a, b) :: toPairsN rest
  | _ => []

/-- `_get_curr_variant_probs_layout_2`: read `C` (and `D` when compressed),
decompress, then walk the decompressed buffer: inner sample count, allele
count, min/max ploidy, per-sample missingness bits, phased flag, bit width
`b`, and finally the probability stream, reshaped to `(sample_number, 2)`
and divided by `2^b - 1`. -/
def getCurrVariantProbsLayout2 (r : BgenReader) (pos : Nat) :
    Except String ((List (ℚ × ℚ) × List Bool) × Nat) := do
  let (c, p1) ← unpackU32 r.fileBytes pos
  let (d, toRead, p2) ← if r.compressed then do
      let (d, p2) ← unpackU32 r.fileBytes p1
      .ok (d, c - 4, p2)
    else .ok ((c, c, p1) : Nat × Nat × Nat)
  let (raw, p3) := readN r.fileBytes p2 toRead
  let data ← r.compression raw
  if data.length ≠ d then .error "INVALID HERE" else
  let n ← structUnpackU32 (data.take 4)
  if n ≠ r.sampleNumber then .error "sample_size_violation" else
  let data := data.drop 4
  let nbAlleles ← structUnpackU16 (data.take 2)
  if nbAlleles ≠ 2 then .error "INVALID HERE" else
  let data := data.drop 2
  let minPloidy ← byteAt data 0
  let maxPloidy ← byteAt data 1
  if minPloidy ≠ 2 ∧ maxPloidy ≠ 2 then .error "INVALID HERE" else
  let data := data.drop 2
  let ploidyInfo := data.take n
  let missingData := ploidyInfo.map (fun x => decide (128 ≤ x % 256))
  let data := data.drop n
  let phased ← byteAt data 0
  if phased = 1 then .error "only accepting unphased data" else
  let data := data.drop 1
  let b ← byteAt data 0
  let data := data.drop 1
  let probsInts ← if b = 8 then .ok data
    else if b = 16 then fromBufferU16 data
    else if b = 32 then fromBufferU32 data
    else packBits data b
  if probsInts.length ≠ r.sampleNumber * 2 then .error "cannot reshape" else
  let denom : ℚ := ((2 ^ b - 1 : Nat) : ℚ)
  .ok (((toPairsN probsInts).map (fun v => (qdiv (v.1 : ℚ) denom, qdiv (v.2 : ℚ) denom)),
        missingData), p3)

/-- `_get_layout_2_last_probs`: the implicit homozygous-alternative column
`1 - p0 - p1`. -/
def getLayout2LastProbs (probs : List (ℚ × ℚ)) : List ℚ :=
  probs.map (fun p => qsub 1 (qadd p.1 p.2))

/-- `_layout_2_probs_to_dosage`: `2·last + p1` with the quality mask — a
sample is good when either explicit probability or the implicit last one
reaches the threshold; bad samples become NaN (only when the threshold is
positive). -/
def layout2ProbsToDosage (r : BgenReader) (probs : List (ℚ × ℚ)) :
    List (Option ℚ) :=
  let lastProbs := getLayout2LastProbs probs
  let dosage := (probs.zip lastProbs).map (fun pl => qadd (qmul 2 pl.2) pl.1.2)
  if 0 < r.probability then
    let goodProbs := (probs.zip lastProbs).map (fun pl =>
      decide ((r.probability ≤ pl.1.1 ∨ r.probability ≤ pl.1.2) ∨ r.probability ≤ pl.2))
    (dosage.zip goodProbs).map (fun dg => if dg.2 then some dg.1 else none)
  else dosage.map some

/-- `dosage[missing_data] = np.nan`: missing rows become NaN. -/
def setMissingNaN (xs : List (Option ℚ)) (missing : List Bool) : List (Option ℚ) :=
  (xs.zip missing).map (fun xm => if xm.2 then none else xm.1)

/-- `full_probs[missing_data] = np.nan` on the three-column matrix. -/
def setMissingRowNaN (xs : List (Option ℚ × Option ℚ × Option ℚ))
    (missing : List Bool) : List (Option ℚ × Option ℚ × Option ℚ) :=
  (xs.zip missing).map (fun xm => if xm.2 then (none, none, none) else xm.1)

/-! ## `_get_curr_variant_data` and the bulk queries -/

/-- What `_get_curr_variant_data` emits: a dosage vector, a layout-2
three-column probability matrix, or the raw layout-1 probability triples. -/
inductive VariantData
  | dosage (v : List (Option ℚ))
  | probs (m : List (Option ℚ × Option ℚ × Option ℚ))
  | probs1 (m : List (ℚ × ℚ × ℚ))
deriving DecidableEq

/-- `_get_curr_variant_data`: layout dispatch, probability-return dispatch,
missing rows set to NaN for layout 2. -/
def getCurrVariantData (r : BgenReader) (pos : Nat) :
    Except String (VariantData × Nat) :=
  if r.layout = 1 then do
    let (probs, p) ← getCurrVariantProbsLayout1 r pos
    if r.probabilityReturn then .ok (.probs1 probs, p)
    else .ok (.dosage (layout1ProbsToDosage r probs), p)
  else do
    let ((probs, missingData), p) ← getCurrVariantProbsLayout2 r pos
    if r.probabilityReturn then
      let lastProbs := getLayout2LastProbs probs
      let fullProbs := (probs.zip lastProbs).map
        (fun pl => (some pl.1.1, some pl.1.2, some pl.2))
      .ok (.probs (setMissingRowNaN fullProbs missingData), p)
    else
      .ok (.dosage (setMissingNaN (layout2ProbsToDosage r probs) missingData), p)

/-- `_get_variant`: seek to the variant, parse its info, then its data; with
`dosage=True` only the data is returned. -/
def getVariant (r : BgenReader) (seek : Nat) (dosage : Bool) :
    Except String (Option RawVariant × VariantData) := do
  let (variant, p) ← getCurrVariantInfo r seek
  let (data, _) ← getCurrVariantData r p
  if dosage then .ok (none, data) else .ok (some variant, data)

/-- `dosage_array`: fetch every `file_start_position` from the index, decode
each variant's data, and select rows through `sid_index`.  The per-variant
vectors are NOT projected through `iid_index`. -/
def dosageArray (r : BgenReader) : Except String (List VariantData) := do
  if ¬ r.bgiPresent then .error "index_violation: dosage_array" else
  let rows ← (r.bgiRows.map (fun row => row.fileStartPosition)).mapM
    (fun seek => do
      let (_, d) ← getVariant r seek true
      pure d)
  pyIndex rows r.sidIndex

/-! ## Sample identifiers (`_parse_sample_block`, `iid_array`, `iid_to_index`) -/

/-- `_parse_sample_block`: re-parse the header, read the sample-block size and
inner count (both asserted), then the length-prefixed sample identifiers. -/
def parseSampleBlock (r : BgenReader) : Except String (List (List Nat)) := do
  let (_, pos) ← parseHeader r.fileBytes
  let (blockSize, p1) ← unpackU32 r.fileBytes pos
  if blockSize + r.headersSize ≠ r.offsetV then .error "sample_block_violation" else
  let (n, p2) ← unpackU32 r.fileBytes p1
  if n ≠ r.sampleNumber then .error "sample_size_violation" else
  let (samples, _) ← readStr16List r.fileBytes p2 r.sampleNumber
  if samples.length ≠ r.sampleNumber then .error "sample_size_violation" else
  .ok samples

/-- A row of `iid_array`: an embedded identifier string, or the synthesised
`(i, i)` pair for an included sample index. -/
inductive IdRow
  | str (bytes : List Nat)
  | pair (a b : Nat)
deriving DecidableEq

/-- `all(iid == current_id)` over numpy values: equal strings, or pairwise
equal index pairs; comparing different shapes broadcasts to all-False. -/
def idRowEq : IdRow → IdRow → Bool
  | .str a, .str b => a = b
  | .pair a b, .pair c d => a = c && b = d
  | _, _ => false

/-- `iid_array`: embedded identifiers when present, `NotImplementedError` when
only a `.sample` path was supplied, otherwise the synthesised `(i, i)` rows
over the selected sample indices. -/
def iidArray (r : BgenReader) : Except String (List IdRow) :=
  if r.sampleIdentifiers then do
    let samples ← parseSampleBlock r
    .ok (samples.map IdRow.str)
  else if r.samplePath then .error "NotImplementedError: Sorry this needs to be tested"
  else do
    let sel ← pyIndex ((List.range r.sampleNumber).map Int.ofNat) r.iidIndex
    .ok (sel.map (fun i => IdRow.pair i.toNat i.toNat))

/-- `_index_idd`: the first position of `current_id` in the indexed id array,
`None` when absent. -/
def indexIdd (currentId : IdRow) (iidIndexed : List IdRow) : Option Nat :=
  iidIndexed.findIdx? (fun iid => idRowEq iid currentId)

/-- `iid_to_index`: with `set_failed` the source immediately raises
`NotImplementedError`; otherwise the id array is indexed (a second time)
through `iid_index` and each requested id is looked up, ids that are not
found being silently dropped by the `if iid or iid == 0` filter. -/
def iidToIndex (r : BgenReader) (iidList : List IdRow) (setFailed : Bool) :
    Except String (List Nat) :=
  if setFailed then .error "NotImplementedError: Sorry, set failed not yet implemented"
  else do
    let arr ← iidArray r
    let iidIndexed ← pyIndex arr r.iidIndex
    .ok ((iidList.map (fun c => indexIdd c iidIndexed)).filterMap id)

/-! ## `create_bgi` -/

/-- `_set_bgi_lines`: record the block start, parse the info stage, read the
payload length `C`, compute `size_in_bytes` and skip past the payload. -/
def setBgiLines (r : BgenReader) (pos : Nat) : Except String (BgiRow × Nat) := do
  let startPosition := pos
  let (v, p1) ← getCurrVariantInfo r pos
  let (dosageSize, p2) ← unpackU32 r.fileBytes p1
  let sizeInBytes := (p2 - startPosition) + dosageSize
  .ok (⟨startPosition, sizeInBytes, v.chromosome, v.position, v.rsid,
        v.allele1, v.allele2⟩, p2 + dosageSize)

/-- The `sid_count` iterations of `_set_bgi_lines` in `create_bgi`. -/
def collectBgiLines (r : BgenReader) (pos : Nat) :
    Nat → Except String (List BgiRow × Nat)
  | 0 => .ok ([], pos)
  | k + 1 => do
    let (row, p) ← setBgiLines r pos
    let (rest, p2) ← collectBgiLines r p k
    .ok (row :: rest, p2)

/-- `Path(p).name`: the final component of a path string. -/
def pathFileName (p : String) : String := (p.splitOn "/").getLastD p

/-- The `.bgi` output path chosen by `create_bgi`: next to the BGEN file by
default, or inside the supplied directory. -/
def bgiWritePathFor (r : BgenReader) (bgiWritePath : Option String) : String :=
  match bgiWritePath with
  | none => r.filePath ++ ".bgi"
  | some d => d ++ "/" ++ pathFileName r.filePath ++ ".bgi"

/-- The world of `.bgi` files on disk: path ↦ rows of its `Variant` table. -/
abbrev BgiFileSystem := List (String × List BgiRow)

/-- `Path(write_path).exists()`. -/
def fsExists (fs : BgiFileSystem) (p : String) : Bool := fs.any (fun e => e.1 = p)

/-- `create_bgi`: layout 2 only; skip entirely when the target path exists,
otherwise scan the file from `variant_start` and write the collected rows
as a new `.bgi` database. -/
def createBgi (r : BgenReader) (fs : BgiFileSystem) (bgiWritePath : Option String) :
    Except String BgiFileSystem :=
  if r.layout ≠ 2 then .error "assert layout == 2" else
  let writePath := bgiWritePathFor r bgiWritePath
  if fsExists fs writePath then .ok fs
  else do
    let (rows, _) ← collectBgiLines r r.variantStart r.sidCount
    .ok ((writePath, rows) :: fs)

/-! ## Concrete fixtures -/

/-- A reader with empty file and default fields, used only as the fallback of
`mkReaderD`. -/
def defaultReader : BgenReader where
  filePath := ""
  fileBytes := []
  bgiPresent := false
  bgiRows := []
  offsetV := 20
  headersSize := 20
  variantNumber := 0
  sampleNumber := 0
  compressionFlag := 0
  compressed := false
  compression := noDecompress
  layout := 2
  sampleIdentifiers := false
  variantStart := 24
  iidIndex := defaultSelector
  sidIndex := defaultSelector
  iidCount := 0
  sidCount := 0
  probabilityReturn := false
  probability := mkRat 9 10
  samplePath := false
  lastVariantBlock := none
  zlibD := noDecompress
  zstdD := noDecompress

/-- Extract the reader from a successful `bgenInit` (fixtures only). -/
def mkReaderD (e : Except String (BgenReader × Nat)) : BgenReader :=
  match e with
  | .ok rk => rk.1
  | .error _ => defaultReader

/-- A minimal valid 24-byte BGEN header: `offset = header_size = 20`, the
given variant and sample counts, magic `bgen`, and the given flag word. -/
def mkHeader (variantNumber sampleNumber flagWord : Nat) : List Nat :=
  u32le 20 ++ u32le 20 ++ u32le variantNumber ++ u32le sampleNumber ++
    [98, 103, 101, 110] ++ u32le flagWord

/-- Info stage of a layout-2 variant: empty id, rsid `rs`, chromosome `1`,
position 100, two single-byte alleles. -/
def infoBlockLayout2 : List Nat :=
  u16le 0 ++ (u16le 2 ++ [114, 115]) ++ (u16le 1 ++ [49]) ++ u32le 100 ++
    u16le 2 ++ (u32le 1 ++ [65]) ++ (u32le 1 ++ [67])

/-- A layout-2, uncompressed, 5-sample, 1-variant BGEN file: the variant
block starts at byte 24 with the info stage, followed by a payload with
`b = 8` and per-sample probability bytes
`(255,0) (253,0) (251,0) (249,0) (247,0)`; no sample is missing. -/
def c1File : List Nat :=
  mkHeader 1 5 8 ++ infoBlockLayout2 ++
    (u32le 25 ++ u32le 5 ++ u16le 2 ++ [2, 2] ++ [2, 2, 2, 2, 2] ++ [0] ++ [8] ++
      [255, 0, 253, 0, 251, 0, 249, 0, 247, 0])

/-- The companion index of `c1File`: one variant starting at byte 24. -/
def c1Bgi : List BgiRow := [⟨24, 54, [49], 100, [114, 115], [65], [67]⟩]

/-- A header-only layout-2 BGEN file with 3 samples and 1 declared variant. -/
def c2File : List Nat := mkHeader 1 3 8

/-- The reader opened on `c2File` without a companion index. -/
def c2Reader : BgenReader :=
  mkReaderD (bgenInit "f" c2File false [] false (mkRat 9 10) false defaultSelector
    defaultSelector noDecompress noDecompress)

/-- A layout-2, uncompressed, 1-sample payload block at byte 24 declaring
`min_ploidy = 1` and `max_ploidy = 2`. -/
def c3File : List Nat :=
  mkHeader 1 1 8 ++ (u32le 13 ++ u32le 1 ++ u16le 2 ++ [1, 2] ++ [2] ++ [0] ++ [8] ++ [255, 0])

/-- Info stage of a layout-1 variant (no allele-count field). -/
def infoBlockLayout1 : List Nat :=
  u16le 0 ++ (u16le 2 ++ [114, 115]) ++ (u16le 1 ++ [49]) ++ u32le 100 ++
    (u32le 1 ++ [65]) ++ (u32le 1 ++ [67])

/-- A layout-1 file with 5 samples whose variant block at byte 24 starts with
the `u32` prefix 5 — the file-level sample count. -/
def c4File : List Nat := mkHeader 1 5 4 ++ u32le 5 ++ infoBlockLayout1

/-- A layout-2, uncompressed, 1-sample payload block at byte 24 whose declared
bit width is `b` and whose probability stream is empty. -/
def c5File (b : Nat) : List Nat :=
  mkHeader 1 1 8 ++ (u32le 11 ++ u32le 1 ++ u16le 2 ++ [2, 2] ++ [2] ++ [0] ++ [b])

/-- A layout-1, uncompressed, 2-sample file offering 12 payload bytes
(= `sample_count · 6`) at byte 24. -/
def c6File : List Nat := mkHeader 1 2 4 ++ List.replicate 12 0

/-- The reader opened on `c6File`. -/
def c6Reader : BgenReader :=
  mkReaderD (bgenInit "f" c6File false [] false (mkRat 9 10) false defaultSelector
    defaultSelector noDecompress noDecompress)

/-- A header-only layout-2 BGEN file with 3 samples, no embedded identifiers. -/
def c8File : List Nat := mkHeader 1 3 8

/-- The reader opened on `c8File`. -/
def c8Reader : BgenReader :=
  mkReaderD (bgenInit "f" c8File false [] false (mkRat 9 10) false defaultSelector
    defaultSelector noDecompress noDecompress)

/-- The reader used for the `create_bgi` and slicing witnesses. -/
def c9Reader : BgenReader :=
  mkReaderD (bgenInit "f" c2File false [] false (mkRat 9 10) false defaultSelector
    defaultSelector noDecompress noDecompress)

/-- A filesystem on which the target `.bgi` of `c9Reader` already exists. -/
def c9Fs : BgiFileSystem := [("f.bgi", [])]

/-- `c2Reader` sliced once, for the slicing-composition witness. -/
def c10Sliced : BgenReader :=
  mkReaderD (getItem c2Reader (.arr [0, 1]) (.arr [0]))

/-! ## Helper lemmas

Correctness of the kernel-computable rational operations, and inversion
lemmas for the byte-level parsers. -/

theorem qadd_eq (a b : ℚ) : qadd a b = a + b := by
  have ha : ((a.den : ℚ)) ≠ 0 := by exact_mod_cast a.den_nz
  have hb : ((b.den : ℚ)) ≠ 0 := by exact_mod_cast b.den_nz
  rw [qadd, Rat.divInt_eq_div]
  push_cast
  conv_rhs => rw [← Rat.num_div_den a, ← Rat.num_div_den b]
  rw [div_add_div _ _ ha hb]
  ring_nf

theorem qsub_eq (a b : ℚ) : qsub a b = a - b := by
  have ha : ((a.den : ℚ)) ≠ 0 := by exact_mod_cast a.den_nz
  have hb : ((b.den : ℚ)) ≠ 0 := by exact_mod_cast b.den_nz
  rw [qsub, Rat.divInt_eq_div]
  push_cast
  conv_rhs => rw [← Rat.num_div_den a, ← Rat.num_div_den b]
  rw [div_sub_div _ _ ha hb]
  ring_nf

theorem qmul_eq (a b : ℚ) : qmul a b = a * b := by
  rw [qmul, Rat.divInt_eq_div]
  push_cast
  conv_rhs => rw [← Rat.num_div_den a, ← Rat.num_div_den b]
  rw [div_mul_div_comm]

theorem qdiv_eq (a b : ℚ) : qdiv a b = a / b := by
  rw [qdiv, Rat.divInt_eq_div]
  push_cast
  conv_rhs => rw [← Rat.num_div_den a, ← Rat.num_div_den b]
  rw [div_eq_mul_inv (a.num / (a.den : ℚ)), inv_div, div_mul_div_comm]

/-- A read never moves the position backwards. -/
theorem readN_snd_ge (data : List Nat) (pos n : Nat) : pos ≤ (readN data pos n).2 :=
  Nat.le_add_right _ _

/-- A read that obtained `n` bytes advanced the position by exactly `n`. -/
theorem readN_snd_of_len {data : List Nat} {pos n : Nat}
    (h : (readN data pos n).1.length = n) : (readN data pos n).2 = pos + n := by
  simp only [readN] at h ⊢
  omega

/-- A successful `u32` read advances the position by exactly 4 bytes. -/
theorem unpackU32_ok {data : List Nat} {pos : Nat} {vp : Nat × Nat}
    (h : unpackU32 data pos = .ok vp) : vp.2 = pos + 4 := by
  simp only [unpackU32, readN, structUnpackU32, bind, Except.bind] at h
  split at h
  · simp at h
  · rename_i x v heq
    simp only [Except.ok.injEq] at h
    subst h
    split at heq
    · rename_i hc
      simp only [List.length_take, List.length_drop] at hc ⊢
      omega
    · simp at heq

/-- A successful header parse consumes at least 24 bytes of the file. -/
theorem parseHeader_ok_bytes {data : List Nat} {hd : HeaderInfo} {k : Nat}
    (h : parseHeader data = .ok (hd, k)) : 24 ≤ k := by
  simp only [parseHeader, bind, Except.bind] at h
  repeat' split at h
  all_goals try exact Except.noConfusion h
  rename_i x3 v3 heq3 x2 v2 heq2 hle x1 v1 heq1 x0 v0 heq0 hm4 hmg hf4 hcf hly
  simp only [Except.ok.injEq, Prod.mk.injEq] at h
  obtain ⟨-, hk⟩ := h
  have hv3 := unpackU32_ok heq3
  have hv2 := unpackU32_ok heq2
  have hv1 := unpackU32_ok heq1
  have hv0 := unpackU32_ok heq0
  simp only [ne_eq, not_not] at hm4 hf4
  have e5 := readN_snd_of_len hm4
  have e6 := readN_snd_ge data (readN data v0.2 4).2 (v2.1 - 20)
  have e7 := readN_snd_of_len hf4
  omega

/-- Inversion of a successful `__init__`: the reader is `mkReader` applied to
the parsed header, the resolved selector arrays and the index connection,
and the byte count is the header-parse consumption. -/
theorem bgenInit_ok_spec {path : String} {file : List Nat} {bgiP : Bool}
    {rows : List BgiRow} {pr : Bool} {q : ℚ} {sp : Bool} {ii si : Selector}
    {zl zs : List Nat → Except String (List Nat)} {r : BgenReader} {k : Nat}
    (h : bgenInit path file bgiP rows pr q sp ii si zl zs = .ok (r, k)) :
    ∃ hdr iidArr sidArr lv,
      parseHeader file = .ok (hdr, k) ∧
      pyIndex ((List.range hdr.sampleNumber).map Int.ofNat) ii = .ok iidArr ∧
      pyIndex ((List.range hdr.variantNumber).map Int.ofNat) si = .ok sidArr ∧
      r = mkReader path file bgiP rows pr q sp ii si zl zs hdr iidArr sidArr lv := by
  simp only [bgenInit, bind, Except.bind, pure] at h
  repeat' split at h
  all_goals try exact Except.noConfusion h
  · rename_i xh vh heqh xi ia heqi xs sa heqs hbgi xc lvn heqc xp lv heqp
    simp only [Except.pure, Except.ok.injEq, Prod.mk.injEq] at h
    obtain ⟨hr, hk⟩ := h
    refine ⟨vh.1, ia, sa, lv, ?_, heqi, heqs, hr.symm⟩
    rw [← hk]
    exact heqh
  · rename_i xh vh heqh xi ia heqi xs sa heqs hbgi xp lv heqp
    simp only [Except.pure, Except.ok.injEq, Prod.mk.injEq] at h
    obtain ⟨hr, hk⟩ := h
    refine ⟨vh.1, ia, sa, lv, ?_, heqi, heqs, hr.symm⟩
    rw [← hk]
    exact heqh

/-- `_layout_2_probs_to_dosage` acts elementwise. -/
theorem layout2ProbsToDosage_cons (r : BgenReader) (p : ℚ × ℚ) (ps : List (ℚ × ℚ)) :
    layout2ProbsToDosage r (p :: ps) =
      (if 0 < r.probability then
        (if decide ((r.probability ≤ p.1 ∨ r.probability ≤ p.2) ∨
            r.probability ≤ qsub 1 (qadd p.1 p.2)) then
          some (qadd (qmul 2 (qsub 1 (qadd p.1 p.2))) p.2) else none)
      else some (qadd (qmul 2 (qsub 1 (qadd p.1 p.2))) p.2)) ::
        layout2ProbsToDosage r ps := by
  by_cases hq : 0 < r.probability <;>
    simp [layout2ProbsToDosage, getLayout2LastProbs, hq]

/-- The missing mask acts elementwise. -/
theorem setMissingNaN_cons (x : Option ℚ) (xs : List (Option ℚ)) (m : Bool) (ms : List Bool) :
    setMissingNaN (x :: xs) (m :: ms) = (if m then none else x) :: setMissingNaN xs ms := by
  simp [setMissingNaN]

/-! ## Claim C1 -/

/-- C1: FALSIFIED BY THE CODE (code bug).  On a 5-sample layout-2 file opened
with `sample_selector = [0, 2, 4]`, `dosage_array` returns a single row with
all 5 samples' dosages in file order — the per-variant vectors are never
projected through `iid_index`, so the matrix has `sample_count` columns, not
the 3 selected ones the spec promises. -/
theorem c1_dosage_array_ignores_sample_selector :
    (do
      let ri ← bgenInit "f" c1File true c1Bgi false (mkRat 9 10) false
        (.arr [0, 2, 4]) defaultSelector noDecompress noDecompress
      dosageArray ri.1 : Except String (List VariantData)) =
    .ok [VariantData.dosage
      [some 0, some (mkRat 4 255), some (mkRat 8 255), some (mkRat 12 255),
       some (mkRat 16 255)]] := by
  decide

/-! ## Claim C3 -/

/-- C3: FALSIFIED BY THE CODE (code bug).  The source guards the ploidy with
`if min_ploidy != 2 and max_ploidy != 2`, so a payload declaring
`min_ploidy = 1, max_ploidy = 2` passes the check and decodes successfully
instead of failing with `Unsupported`. -/
theorem c3_ploidy_check_accepts_min_ploidy_one :
    (do
      let ri ← bgenInit "f" c3File false [] false (mkRat 9 10) false defaultSelector
        defaultSelector noDecompress noDecompress
      getCurrVariantProbsLayout2 ri.1 24 :
      Except String ((List (ℚ × ℚ) × List Bool) × Nat)) =
    .ok ((([((1 : ℚ), (0 : ℚ))], [false]) : List (ℚ × ℚ) × List Bool), 41) := by
  decide

/-! ## Claim C4 -/

/-- C4: FALSIFIED BY THE CODE (code bug).  The variant block of `c4File`
starts with the `u32` prefix 5, equal to the file-level `sample_count`; the
spec therefore expects the check to pass.  But the source asserts the prefix
against `self.iid_count`, the count of currently selected samples: with
`sample_selector = [0, 2, 4]` (`iid_count = 3`) the decode fails, while the
unsliced reader succeeds. -/
theorem c4_layout1_prefix_checked_against_selected_count :
    structUnpackU32 ((c4File.drop 24).take 4) = .ok 5 ∧
    (do
      let ri ← bgenInit "f" c4File false [] false (mkRat 9 10) false
        (.arr [0, 2, 4]) defaultSelector noDecompress noDecompress
      getCurrVariantInfo ri.1 24 : Except String (RawVariant × Nat)) = .error "ec" ∧
    (do
      let ri ← bgenInit "f" c4File false [] false (mkRat 9 10) false defaultSelector
        defaultSelector noDecompress noDecompress
      getCurrVariantInfo ri.1 24 : Except String (RawVariant × Nat)).isOk = true := by
  decide

/-! ## Claim C6 -/

/-- C6: FALSIFIED BY THE CODE (code bug).  `c6File` offers exactly
`sample_count · 6 = 12` payload bytes, yet the uncompressed layout-1 path
sets the byte count to `self._sample_number` (the `· 6` is missing): it reads
2 bytes, obtains a single `u16`, and the `(sample_count, 3)` reshape fails
instead of producing the probability triples. -/
theorem c6_layout1_uncompressed_reads_sample_number_bytes :
    (c6File.drop 24).length = c6Reader.sampleNumber * 6 ∧
    getCurrVariantProbsLayout1 c6Reader 24 = .error "cannot reshape" := by
  decide

/-! ## Claim C8 -/

/-- C8: FALSIFIED BY THE CODE (counterexample).  Called with the
report-missing flag set, `iid_to_index` does not return positions with −1
for unknowns: it fails immediately with `NotImplementedError`. -/
theorem c8_set_failed_counterexample :
    (iidToIndex c8Reader [IdRow.pair 1 1] true).isOk = false ∧
    iidToIndex c8Reader [IdRow.pair 1 1] true =
      .error "NotImplementedError: Sorry, set failed not yet implemented" := by
  decide

/-- C8 (amended): for every reader and identifier list, the lookup with the
report-missing flag set raises `NotImplementedError`; the flag is
unimplemented in the source. -/
theorem c8_set_failed_not_implemented (r : BgenReader) (iidList : List IdRow) :
    iidToIndex r iidList true =
      .error "NotImplementedError: Sorry, set failed not yet implemented" := rfl

/-! ## Claim C2 -/

/-- C2: FALSIFIED BY THE CODE (counterexample).  Sub-selecting `c2Reader` with
the identity selectors re-runs the constructor, which re-opens the BGEN file
and re-parses its header: 24 bytes are read, not 0 — sub-selection is not
free of file I/O. -/
theorem c2_getitem_reads_the_file :
    (getItem c2Reader defaultSelector defaultSelector).map (fun x => x.2) = .ok 24 ∧
    (getItem c2Reader defaultSelector defaultSelector).map (fun x => x.2) ≠ .ok 0 := by
  decide

/-- C2 (amended): a successful sub-selection returns a new reader whose
selectors are the given ones resolved by `_set_slice` against the full axis
ranges; but it re-runs the constructor on the same file, re-reading the
header — at least 24 bytes of the BGEN file. -/
theorem c2_getitem_slices_and_rereads_header (r : BgenReader) (iidSl sidSl : Selector)
    (h : (getItem r iidSl sidSl).isOk = true) :
    ∃ ii si r2 k, getItem r iidSl sidSl = .ok (r2, k) ∧
      setSlice r iidSl true = .ok ii ∧ setSlice r sidSl false = .ok si ∧
      r2.iidIndex = .arr ii ∧ r2.sidIndex = .arr si ∧ 24 ≤ k := by
  cases hg : getItem r iidSl sidSl with
  | error s => rw [hg] at h; simp [Except.isOk, Except.toBool] at h
  | ok rk =>
    obtain ⟨r2, k⟩ := rk
    have hg2 := hg
    simp only [getItem, bind, Except.bind] at hg2
    repeat' split at hg2
    all_goals try exact Except.noConfusion hg2
    rename_i xi ii heqi xs si2 heqs
    obtain ⟨hdr, ia, sa, lv, hph, hia, hsa, hr⟩ := bgenInit_ok_spec hg2
    refine ⟨ii, si2, r2, k, rfl, heqi, heqs, ?_, ?_, parseHeader_ok_bytes hph⟩
    · rw [hr]
      rfl
    · rw [hr]
      rfl

/-- C2 (witness). -/
theorem c2_getitem_slices_and_rereads_header_witness :
    ∃ ii si r2 k, getItem c2Reader defaultSelector defaultSelector = .ok (r2, k) ∧
      setSlice c2Reader defaultSelector true = .ok ii ∧
      setSlice c2Reader defaultSelector false = .ok si ∧
      r2.iidIndex = .arr ii ∧ r2.sidIndex = .arr si ∧ 24 ≤ k :=
  c2_getitem_slices_and_rereads_header c2Reader defaultSelector defaultSelector (by decide)

/-! ## Claim C5 -/

set_option maxRecDepth 10000
set_option maxHeartbeats 4000000

/-- C5: CONFIRMED (the range check lives in `mc.pack_bits`, modelled from the
spec).  Whenever the bit width byte `b` of a layout-2 payload lies outside
`[1, 32]` — so outside the aligned fast paths 8/16/32 as well — the decode
fails with `Malformed`. -/
theorem c5_bit_width_out_of_range_is_malformed (b : Nat) (hb : b < 256)
    (hr : ¬ (1 ≤ b ∧ b ≤ 32)) :
    (do
      let ri ← bgenInit "f" (c5File b) false [] false (mkRat 9 10) false defaultSelector
        defaultSelector noDecompress noDecompress
      getCurrVariantProbsLayout2 ri.1 24 :
      Except String ((List (ℚ × ℚ) × List Bool) × Nat)) = .error "Malformed" := by
  have h : ∀ x : Fin 256, (1 ≤ x.val ∧ x.val ≤ 32) ∨
      (do
        let ri ← bgenInit "f" (c5File x.val) false [] false (mkRat 9 10) false defaultSelector
          defaultSelector noDecompress noDecompress
        getCurrVariantProbsLayout2 ri.1 24 :
        Except String ((List (ℚ × ℚ) × List Bool) × Nat)) = .error "Malformed" := by
    decide
  rcases h ⟨b, hb⟩ with h1 | h2
  · exact absurd h1 hr
  · exact h2

/-- C5 (witness): bit width 33. -/
theorem c5_bit_width_out_of_range_is_malformed_witness :
    (do
      let ri ← bgenInit "f" (c5File 33) false [] false (mkRat 9 10) false defaultSelector
        defaultSelector noDecompress noDecompress
      getCurrVariantProbsLayout2 ri.1 24 :
      Except String ((List (ℚ × ℚ) × List Bool) × Nat)) = .error "Malformed" :=
  c5_bit_width_out_of_range_is_malformed 33 (by decide) (by decide)

/-! ## Claim C7 -/

/-- C7: CONFIRMED.  In layout-2 dosage mode, for every in-range sample the
emitted dosage is `2·p2 + p1` with `p2 = 1 − p0 − p1`; when the quality
threshold is positive the dosage is NaN (`none`) unless one of `p0`, `p1`,
`p2` reaches the threshold; and a sample flagged missing is NaN regardless. -/
theorem c7_layout2_dosage_formula (r : BgenReader) (probs : List (ℚ × ℚ))
    (missing : List Bool) (i : Nat)
    (hlen : missing.length = probs.length) (hi : i < probs.length) :
    (setMissingNaN (layout2ProbsToDosage r probs) missing).get? i =
      some (
        if missing.getD i false then none
        else
          let p0 := (probs.getD i (0, 0)).1
          let p1 := (probs.getD i (0, 0)).2
          let p2 := 1 - p0 - p1
          if 0 < r.probability ∧
              ¬ (r.probability ≤ p0 ∨ r.probability ≤ p1 ∨ r.probability ≤ p2)
          then none
          else some (2 * p2 + p1)) := by
  induction probs generalizing missing i with
  | nil => exact absurd hi (by simp)
  | cons p ps ih =>
    cases missing with
    | nil => simp at hlen
    | cons m ms =>
      rw [layout2ProbsToDosage_cons, setMissingNaN_cons]
      cases i with
      | zero =>
        simp only [List.get?, List.getD, Option.getD, qadd_eq, qsub_eq, qmul_eq]
        cases m with
        | true => simp
        | false =>
          simp only [if_neg Bool.false_ne_true, Bool.false_eq_true, if_false]
          by_cases hq : 0 < r.probability
          · by_cases hC : (r.probability ≤ p.1 ∨ r.probability ≤ p.2) ∨
                r.probability ≤ 1 - (p.1 + p.2)
            · have h3 : r.probability ≤ p.1 ∨ r.probability ≤ p.2 ∨
                  r.probability ≤ 1 - (p.1 + p.2) := or_assoc.mp hC
              simp [hq, hC, h3, sub_sub]
            · have h3 : ¬ (r.probability ≤ p.1 ∨ r.probability ≤ p.2 ∨
                  r.probability ≤ 1 - (p.1 + p.2)) := fun h => hC (or_assoc.mpr h)
              simp [hq, hC, h3, sub_sub]
          · simp [hq, sub_sub]
      | succ j =>
        simp only [List.get?]
        rw [ih ms j (by simpa using hlen) (by simpa using hi)]
        simp [List.getD]

/-- C7 (witness): one sample with `p0 = 1/2`, `p1 = 1/4`. -/
theorem c7_layout2_dosage_formula_witness :
    (setMissingNaN (layout2ProbsToDosage defaultReader [(mkRat 1 2, mkRat 1 4)])
        [false]).get? 0 =
      some (
        if [false].getD 0 false then none
        else
          let p0 := ([(mkRat 1 2, mkRat 1 4)].getD 0 (0, 0)).1
          let p1 := ([(mkRat 1 2, mkRat 1 4)].getD 0 (0, 0)).2
          let p2 := 1 - p0 - p1
          if 0 < defaultReader.probability ∧
              ¬ (defaultReader.probability ≤ p0 ∨ defaultReader.probability ≤ p1 ∨
                defaultReader.probability ≤ p2)
          then none
          else some (2 * p2 + p1)) :=
  c7_layout2_dosage_formula defaultReader [(mkRat 1 2, mkRat 1 4)] [false] 0 rfl
    (by decide)

/-! ## Claim C9 -/

/-- C9: CONFIRMED.  When the target `.bgi` path already exists, `create_bgi`
leaves the filesystem unchanged; and whatever a successful call produced,
running `create_bgi` again on its result is a no-op returning the same
filesystem. -/
theorem c9_create_bgi_idempotent (r : BgenReader) (fs fs2 : BgiFileSystem)
    (wp : Option String) (h : createBgi r fs wp = .ok fs2) :
    (fsExists fs (bgiWritePathFor r wp) = true → fs2 = fs) ∧
      createBgi r fs2 wp = .ok fs2 := by
  simp only [createBgi, bind, Except.bind] at h
  split at h
  · exact Except.noConfusion h
  · rename_i hlay
    split at h
    · rename_i hex
      simp only [Except.ok.injEq] at h
      subst h
      refine ⟨fun _ => rfl, ?_⟩
      simp only [createBgi, bind, Except.bind]
      rw [if_neg hlay, if_pos hex]
    · rename_i hex
      split at h
      · exact Except.noConfusion h
      · rename_i xr rowsp heqr
        simp only [Except.ok.injEq] at h
        subst h
        refine ⟨fun hx => absurd hx hex, ?_⟩
        simp only [createBgi, bind, Except.bind]
        rw [if_neg hlay, if_pos (by simp [fsExists])]

/-- C9 (witness): the target of `c9Reader` already exists on `c9Fs`. -/
theorem c9_create_bgi_idempotent_witness :
    (fsExists c9Fs (bgiWritePathFor c9Reader none) = true → c9Fs = c9Fs) ∧
      createBgi c9Reader c9Fs none = .ok c9Fs :=
  c9_create_bgi_idempotent c9Reader c9Fs c9Fs none (by decide)

/-! ## Claim C10 -/

/-- C10: CONFIRMED.  Slicing a reader that was itself obtained by slicing
resolves the new selectors against the full `[0, sample_count)` and
`[0, variant_count)` ranges of the file: the doubly-sliced reader coincides
with slicing the original reader directly, so the earlier selection is
discarded rather than composed. -/
theorem c10_slicing_discards_earlier_selection (path : String) (file : List Nat)
    (bgiP : Bool) (rows : List BgiRow) (pr : Bool) (q : ℚ) (sp : Bool)
    (i0 s0 s1 s2 s3 s4 : Selector) (zl zs : List Nat → Except String (List Nat))
    (r r1 : BgenReader) (k0 k1 : Nat)
    (h0 : bgenInit path file bgiP rows pr q sp i0 s0 zl zs = .ok (r, k0))
    (h1 : getItem r s1 s2 = .ok (r1, k1)) :
    getItem r1 s3 s4 = getItem r s3 s4 := by
  obtain ⟨hdr, ia, sa, lv, hph, hia, hsa, hr⟩ := bgenInit_ok_spec h0
  subst hr
  simp only [getItem, bind, Except.bind] at h1
  repeat' split at h1
  all_goals try exact Except.noConfusion h1
  rename_i xi ii heqi xs si2 heqs
  obtain ⟨hdr1, ia1, sa1, lv1, hph1, hia1, hsa1, hr1⟩ := bgenInit_ok_spec h1
  have hfb : (mkReader path file bgiP rows pr q sp i0 s0 zl zs hdr ia sa lv).fileBytes =
      file := rfl
  rw [hfb] at hph1
  rw [hph] at hph1
  simp only [Except.ok.injEq, Prod.mk.injEq] at hph1
  obtain ⟨hh, hk⟩ := hph1
  subst hh
  subst hr1
  simp only [getItem, setSlice, mkReader]

/-- C10 (witness): slicing `c2Reader` to samples `[0, 1]` and variants `[0]`,
then re-slicing to sample `[2]`, equals slicing `c2Reader` directly. -/
theorem c10_slicing_discards_earlier_selection_witness :
    getItem c10Sliced (.arr [2]) defaultSelector =
      getItem c2Reader (.arr [2]) defaultSelector :=
  c10_slicing_discards_earlier_selection "f" c2File false [] false (mkRat 9 10) false
    defaultSelector defaultSelector (.arr [0, 1]) (.arr [0]) (.arr [2]) defaultSelector
    noDecompress noDecompress c2Reader c10Sliced 24 24 (by rfl) (by rfl)

end PyGenicParser
